import Mathlib

/-!
Shallow embedding of the ESP32-SemaphoreGuard library
(src/src/SemaphoreGuard.{h,cpp}, src/src/RecursiveSemaphoreGuard.{h,cpp},
src/src/SemaphoreGuardLogging.h).

Modelling conventions:
* `SemaphoreHandle_t` is `Option Nat`: `none` is `nullptr`, `some h` a
  non-null kernel handle.
* `TickType_t` is `Nat`; `portMAX_DELAY` is the 32-bit all-ones tick value.
* `BaseType_t` results of kernel take calls are `Int`; `pdTRUE = 1`.
* Each constructor / destructor is a pure function from its inputs
  (handle, timeout, the result of `xPortInIsrContext()`, and the value the
  kernel take call would return if reached) to the resulting object state
  together with the trace of external calls it performs: kernel semaphore
  operations and log lines.  The kernel take result is an input because the
  kernel is an external collaborator; whether the take call is actually
  issued is recorded in the trace.
* The debug build variant (`SEMAPHORE_GUARD_DEBUG` defined) is embedded
  separately with the extra fields `m_file`, `m_line`, `m_acquireTime`.
  A field that a constructor leaves uninitialized is `none`; the debug
  destructor returns `none` when it reads such an indeterminate field.
-/

/-- Tick value used for an unbounded wait (32-bit all-ones). -/
def portMAX_DELAY : Nat := 2 ^ 32 - 1

/-- Kernel success return code. -/
def pdTRUE : Int := 1

/-- Log tag of `SemaphoreGuard` (SemaphoreGuardLogging.h). -/
def SEMG_LOG_TAG : String := "SemaphoreGuard"

/-- Log tag of `RecursiveSemaphoreGuard` (SemaphoreGuardLogging.h). -/
def RSEMG_LOG_TAG : String := "RecursiveSemaphoreGuard"

/-- A call into the kernel semaphore API. -/
inductive KernelCall where
  | take (h : Nat) (timeout : Nat)
  | takeRecursive (h : Nat) (timeout : Nat)
  | give (h : Nat)
  | giveRecursive (h : Nat)
deriving Repr, DecidableEq

/-- Severity of an emitted log line. -/
inductive LogLevel where
  | error
  | warn
  | debug
deriving Repr, DecidableEq

/-- An externally observable effect of a guard operation. -/
inductive Event where
  | kernel (c : KernelCall)
  | log (lvl : LogLevel) (tag : String) (msg : String)
deriving Repr, DecidableEq

/-- The kernel calls occurring in a trace, in order. -/
def kernelCalls (tr : List Event) : List KernelCall :=
  tr.filterMap fun e =>
    match e with
    | Event.kernel c => some c
    | Event.log _ _ _ => none

/-- Whether a trace contains a log line of the given severity. -/
def hasLogAt (lvl : LogLevel) (tr : List Event) : Bool :=
  tr.any fun e =>
    match e with
    | Event.kernel _ => false
    | Event.log l _ _ => l == lvl

/-- State of a `SemaphoreGuard` object (release build): the stored handle
and the `m_taken` flag (SemaphoreGuard.h, private section). -/
structure SemaphoreGuard where
  m_handle : Option Nat
  m_taken : Bool
deriving Repr, DecidableEq

/-- `SemaphoreGuard::SemaphoreGuard(SemaphoreHandle_t handle)`:
null-handle check, ISR-context check, then
`m_taken = (xSemaphoreTake(m_handle, portMAX_DELAY) == pdTRUE)`. -/
def SemaphoreGuard.construct (handle : Option Nat) (inIsr : Bool)
    (takeRet : Int) : SemaphoreGuard × List Event :=
  match handle with
  | none =>
      (⟨none, false⟩,
       [Event.log LogLevel.error SEMG_LOG_TAG "Null semaphore handle provided"])
  | some h =>
      if inIsr then
        (⟨some h, false⟩,
         [Event.log LogLevel.error SEMG_LOG_TAG
            "Cannot use SemaphoreGuard in ISR context"])
      else
        (⟨some h, decide (takeRet = pdTRUE)⟩,
         [Event.kernel (KernelCall.take h portMAX_DELAY)])

/-- `SemaphoreGuard::SemaphoreGuard(SemaphoreHandle_t handle, TickType_t
timeout)`: same checks, then
`m_taken = (xSemaphoreTake(m_handle, timeout) == pdTRUE)`. -/
def SemaphoreGuard.constructTimeout (handle : Option Nat) (timeout : Nat)
    (inIsr : Bool) (takeRet : Int) : SemaphoreGuard × List Event :=
  match handle with
  | none =>
      (⟨none, false⟩,
       [Event.log LogLevel.error SEMG_LOG_TAG "Null semaphore handle provided"])
  | some h =>
      if inIsr then
        (⟨some h, false⟩,
         [Event.log LogLevel.error SEMG_LOG_TAG
            "Cannot use SemaphoreGuard in ISR context"])
      else
        (⟨some h, decide (takeRet = pdTRUE)⟩,
         [Event.kernel (KernelCall.take h timeout)])

/-- `SemaphoreGuard::~SemaphoreGuard()` (release build):
`if (m_taken && m_handle != nullptr) xSemaphoreGive(m_handle);`. -/
def SemaphoreGuard.destruct (s : SemaphoreGuard) : List Event :=
  if s.m_taken then
    match s.m_handle with
    | some h => [Event.kernel (KernelCall.give h)]
    | none => []
  else []

/-- `bool SemaphoreGuard::hasLock() const noexcept { return m_taken; }`. -/
def SemaphoreGuard.hasLock (s : SemaphoreGuard) : Bool :=
  s.m_taken

/-- `SemaphoreHandle_t getHandle() const noexcept { return m_handle; }`. -/
def SemaphoreGuard.getHandle (s : SemaphoreGuard) : Option Nat :=
  s.m_handle

/-- `bool isValid() const noexcept { return m_handle != nullptr; }`. -/
def SemaphoreGuard.isValid (s : SemaphoreGuard) : Bool :=
  s.m_handle.isSome

/-- State of a `RecursiveSemaphoreGuard` object (release build)
(RecursiveSemaphoreGuard.h, private section). -/
structure RecursiveSemaphoreGuard where
  m_handle : Option Nat
  m_taken : Bool
deriving Repr, DecidableEq

/-- `RecursiveSemaphoreGuard::RecursiveSemaphoreGuard(SemaphoreHandle_t)`:
null-handle check, ISR-context check, then
`m_taken = (xSemaphoreTakeRecursive(m_handle, portMAX_DELAY) == pdTRUE)`. -/
def RecursiveSemaphoreGuard.construct (handle : Option Nat) (inIsr : Bool)
    (takeRet : Int) : RecursiveSemaphoreGuard × List Event :=
  match handle with
  | none =>
      (⟨none, false⟩,
       [Event.log LogLevel.error RSEMG_LOG_TAG
          "Null recursive mutex handle provided"])
  | some h =>
      if inIsr then
        (⟨some h, false⟩,
         [Event.log LogLevel.error RSEMG_LOG_TAG
            "Cannot use RecursiveSemaphoreGuard in ISR context"])
      else
        (⟨some h, decide (takeRet = pdTRUE)⟩,
         [Event.kernel (KernelCall.takeRecursive h portMAX_DELAY)])

/-- `RecursiveSemaphoreGuard::RecursiveSemaphoreGuard(SemaphoreHandle_t,
TickType_t timeout)`: same checks, then
`m_taken = (xSemaphoreTakeRecursive(m_handle, timeout) == pdTRUE)`. -/
def RecursiveSemaphoreGuard.constructTimeout (handle : Option Nat)
    (timeout : Nat) (inIsr : Bool) (takeRet : Int) :
    RecursiveSemaphoreGuard × List Event :=
  match handle with
  | none =>
      (⟨none, false⟩,
       [Event.log LogLevel.error RSEMG_LOG_TAG
          "Null recursive mutex handle provided"])
  | some h =>
      if inIsr then
        (⟨some h, false⟩,
         [Event.log LogLevel.error RSEMG_LOG_TAG
            "Cannot use RecursiveSemaphoreGuard in ISR context"])
      else
        (⟨some h, decide (takeRet = pdTRUE)⟩,
         [Event.kernel (KernelCall.takeRecursive h timeout)])

/-- `RecursiveSemaphoreGuard::~RecursiveSemaphoreGuard()` (release build):
`if (m_taken && m_handle != nullptr) xSemaphoreGiveRecursive(m_handle);`. -/
def RecursiveSemaphoreGuard.destruct (s : RecursiveSemaphoreGuard) :
    List Event :=
  if s.m_taken then
    match s.m_handle with
    | some h => [Event.kernel (KernelCall.giveRecursive h)]
    | none => []
  else []

/-- `bool RecursiveSemaphoreGuard::hasLock() const { return m_taken; }`. -/
def RecursiveSemaphoreGuard.hasLock (s : RecursiveSemaphoreGuard) : Bool :=
  s.m_taken

/-- `SemaphoreHandle_t getHandle() const { return m_handle; }`. -/
def RecursiveSemaphoreGuard.getHandle (s : RecursiveSemaphoreGuard) :
    Option Nat :=
  s.m_handle

/-- `bool isValid() const { return m_handle != nullptr; }`. -/
def RecursiveSemaphoreGuard.isValid (s : RecursiveSemaphoreGuard) : Bool :=
  s.m_handle.isSome

/-- State of a `SemaphoreGuard` object compiled with
`SEMAPHORE_GUARD_DEBUG`: the extra members `m_file`, `m_line`,
`m_acquireTime` (SemaphoreGuard.h, private section).  A `none` value
records that the member was left uninitialized (indeterminate) by the
constructor that built the object. -/
structure SemaphoreGuardDbg where
  m_handle : Option Nat
  m_taken : Bool
  m_file : Option String
  m_line : Option Int
  m_acquireTime : Option Nat
deriving Repr, DecidableEq

/-- Renders the `%s:%d` site suffix of the debug log messages. -/
def atSite (file : String) (line : Int) : String :=
  file ++ ":" ++ toString line

/-- `TickType_t` subtraction: unsigned 32-bit wraparound. -/
def tickSub (a b : Nat) : Nat :=
  (a + 2 ^ 32 - b % 2 ^ 32) % 2 ^ 32

/-- `SemaphoreGuard::SemaphoreGuard(SemaphoreHandle_t handle)` compiled
with `SEMAPHORE_GUARD_DEBUG`: the member-initializer list only sets
`m_handle` and `m_taken`, so `m_file`, `m_line` and `m_acquireTime`
remain uninitialized, and the body never assigns them. -/
def SemaphoreGuardDbg.construct (handle : Option Nat) (inIsr : Bool)
    (takeRet : Int) : SemaphoreGuardDbg × List Event :=
  match handle with
  | none =>
      (⟨none, false, none, none, none⟩,
       [Event.log LogLevel.error SEMG_LOG_TAG "Null semaphore handle provided"])
  | some h =>
      if inIsr then
        (⟨some h, false, none, none, none⟩,
         [Event.log LogLevel.error SEMG_LOG_TAG
            "Cannot use SemaphoreGuard in ISR context"])
      else
        (⟨some h, decide (takeRet = pdTRUE), none, none, none⟩,
         [Event.kernel (KernelCall.take h portMAX_DELAY)])

/-- `SemaphoreGuard::SemaphoreGuard(SemaphoreHandle_t, const char*, int)`
(debug builds only): records `m_file`, `m_line`, logs the attempt, records
`m_acquireTime = xTaskGetTickCount()` (the `now` argument), then takes
with `portMAX_DELAY` and logs success when taken. -/
def SemaphoreGuardDbg.constructFileLine (handle : Option Nat) (file : String)
    (line : Int) (now : Nat) (inIsr : Bool) (takeRet : Int) :
    SemaphoreGuardDbg × List Event :=
  match handle with
  | none =>
      (⟨none, false, some file, some line, none⟩,
       [Event.log LogLevel.error SEMG_LOG_TAG
          ("Null semaphore handle provided at " ++ atSite file line)])
  | some h =>
      if inIsr then
        (⟨some h, false, some file, some line, none⟩,
         [Event.log LogLevel.error SEMG_LOG_TAG
            ("Cannot use SemaphoreGuard in ISR context at " ++ atSite file line)])
      else
        let taken := decide (takeRet = pdTRUE)
        (⟨some h, taken, some file, some line, some now⟩,
         [Event.log LogLevel.debug SEMG_LOG_TAG
            ("Attempting to acquire semaphore at " ++ atSite file line),
          Event.kernel (KernelCall.take h portMAX_DELAY)]
         ++ (if taken then
               [Event.log LogLevel.debug SEMG_LOG_TAG
                  ("Acquired semaphore at " ++ atSite file line)]
             else []))

/-- `SemaphoreGuard::~SemaphoreGuard()` compiled with
`SEMAPHORE_GUARD_DEBUG`: when releasing, it computes
`holdTime = xTaskGetTickCount() - m_acquireTime` and logs it together with
`m_file` and `m_line` before giving the semaphore.  Reading a member that
was never assigned is an indeterminate-value read; the embedding returns
`none` in that case instead of inventing a value. -/
def SemaphoreGuardDbg.destruct (s : SemaphoreGuardDbg) (now : Nat) :
    Option (List Event) :=
  if s.m_taken then
    match s.m_handle with
    | some h =>
        match s.m_acquireTime, s.m_file, s.m_line with
        | some t0, some f, some l =>
            some [Event.log LogLevel.debug SEMG_LOG_TAG
                    ("Releasing semaphore at " ++ atSite f l ++ " (held for "
                      ++ toString (tickSub now t0) ++ " ticks)"),
                  Event.kernel (KernelCall.give h)]
        | _, _, _ => none
    | none => some []
  else some []

/-- A call to one of the `const` accessor member functions. -/
inductive GuardOp where
  | opHasLock
  | opIsValid
  | opGetHandle
deriving Repr, DecidableEq

/-- The value returned by an accessor call. -/
inductive ObsValue where
  | ofBool (b : Bool)
  | ofHandle (h : Option Nat)
deriving Repr, DecidableEq

/-- Invoking one accessor on a `SemaphoreGuard`: all three are
`const`-qualified, so the object state after the call is the state
before it. -/
def SemaphoreGuard.observe (s : SemaphoreGuard) (op : GuardOp) :
    ObsValue × SemaphoreGuard :=
  match op with
  | GuardOp.opHasLock => (ObsValue.ofBool s.hasLock, s)
  | GuardOp.opIsValid => (ObsValue.ofBool s.isValid, s)
  | GuardOp.opGetHandle => (ObsValue.ofHandle s.getHandle, s)

/-- Running any sequence of accessor calls between construction and
destruction of a `SemaphoreGuard`. -/
def SemaphoreGuard.runOps (s : SemaphoreGuard) (ops : List GuardOp) :
    SemaphoreGuard :=
  ops.foldl (fun st op => (st.observe op).snd) s

/-- Invoking one accessor on a `RecursiveSemaphoreGuard`: all three are
`const`-qualified, so the object state after the call is the state
before it. -/
def RecursiveSemaphoreGuard.observe (s : RecursiveSemaphoreGuard)
    (op : GuardOp) : ObsValue × RecursiveSemaphoreGuard :=
  match op with
  | GuardOp.opHasLock => (ObsValue.ofBool s.hasLock, s)
  | GuardOp.opIsValid => (ObsValue.ofBool s.isValid, s)
  | GuardOp.opGetHandle => (ObsValue.ofHandle s.getHandle, s)

/-- Running any sequence of accessor calls between construction and
destruction of a `RecursiveSemaphoreGuard`. -/
def RecursiveSemaphoreGuard.runOps (s : RecursiveSemaphoreGuard)
    (ops : List GuardOp) : RecursiveSemaphoreGuard :=
  ops.foldl (fun st op => (st.observe op).snd) s

/-- Maps each binary-semaphore kernel primitive to its recursive
counterpart and fixes the rest. -/
def recursify : KernelCall → KernelCall
  | KernelCall.take h t => KernelCall.takeRecursive h t
  | KernelCall.give h => KernelCall.giveRecursive h
  | c => c

/-- The destructor of the binary guard with the null-handle test dropped,
releasing on the acquired flag alone (the handle read defaults to 0 on a
null handle, which never happens on a reachable acquired state). -/
def SemaphoreGuard.destructTakenOnly (s : SemaphoreGuard) : List Event :=
  if s.m_taken then [Event.kernel (KernelCall.give (s.m_handle.getD 0))]
  else []

lemma semGuard_construct_fst (handle : Option Nat) (inIsr : Bool)
    (takeRet : Int) :
    (SemaphoreGuard.construct handle inIsr takeRet).fst
      = ⟨handle, handle.isSome && !inIsr && decide (takeRet = pdTRUE)⟩ := by
  cases handle <;> cases inIsr <;> simp [SemaphoreGuard.construct]

lemma semGuard_constructTimeout_fst (handle : Option Nat)
    (timeout : Nat) (inIsr : Bool) (takeRet : Int) :
    (SemaphoreGuard.constructTimeout handle timeout inIsr takeRet).fst
      = ⟨handle, handle.isSome && !inIsr && decide (takeRet = pdTRUE)⟩ := by
  cases handle <;> cases inIsr <;> simp [SemaphoreGuard.constructTimeout]

lemma recGuard_construct_fst (handle : Option Nat)
    (inIsr : Bool) (takeRet : Int) :
    (RecursiveSemaphoreGuard.construct handle inIsr takeRet).fst
      = ⟨handle, handle.isSome && !inIsr && decide (takeRet = pdTRUE)⟩ := by
  cases handle <;> cases inIsr <;> simp [RecursiveSemaphoreGuard.construct]

lemma recGuard_constructTimeout_fst (handle : Option Nat)
    (timeout : Nat) (inIsr : Bool) (takeRet : Int) :
    (RecursiveSemaphoreGuard.constructTimeout handle timeout inIsr takeRet).fst
      = ⟨handle, handle.isSome && !inIsr && decide (takeRet = pdTRUE)⟩ := by
  cases handle <;> cases inIsr <;> simp [RecursiveSemaphoreGuard.constructTimeout]

/-- C1: for every guard of either type, from either constructor, the
destructor issues exactly one kernel release (`xSemaphoreGive` resp.
`xSemaphoreGiveRecursive`, on the stored handle) when the acquired flag is
true at destruction, and performs no external action at all when it is
false — in particular a construction that failed to acquire (null handle,
ISR context, failed take) leaves the kernel semaphore state untouched at
destruction. -/
theorem guards_C1_destructor_release_iff_acquired (handle : Option Nat)
    (timeout : Nat) (inIsr : Bool) (takeRet : Int) :
    ((SemaphoreGuard.construct handle inIsr takeRet).fst.m_taken = true →
      ∃ h, (SemaphoreGuard.construct handle inIsr takeRet).fst.m_handle = some h ∧
        SemaphoreGuard.destruct (SemaphoreGuard.construct handle inIsr takeRet).fst
          = [Event.kernel (KernelCall.give h)]) ∧
    ((SemaphoreGuard.construct handle inIsr takeRet).fst.m_taken = false →
      SemaphoreGuard.destruct (SemaphoreGuard.construct handle inIsr takeRet).fst = []) ∧
    ((SemaphoreGuard.constructTimeout handle timeout inIsr takeRet).fst.m_taken = true →
      ∃ h, (SemaphoreGuard.constructTimeout handle timeout inIsr takeRet).fst.m_handle = some h ∧
        SemaphoreGuard.destruct (SemaphoreGuard.constructTimeout handle timeout inIsr takeRet).fst
          = [Event.kernel (KernelCall.give h)]) ∧
    ((SemaphoreGuard.constructTimeout handle timeout inIsr takeRet).fst.m_taken = false →
      SemaphoreGuard.destruct (SemaphoreGuard.constructTimeout handle timeout inIsr takeRet).fst = []) ∧
    ((RecursiveSemaphoreGuard.construct handle inIsr takeRet).fst.m_taken = true →
      ∃ h, (RecursiveSemaphoreGuard.construct handle inIsr takeRet).fst.m_handle = some h ∧
        RecursiveSemaphoreGuard.destruct (RecursiveSemaphoreGuard.construct handle inIsr takeRet).fst
          = [Event.kernel (KernelCall.giveRecursive h)]) ∧
    ((RecursiveSemaphoreGuard.construct handle inIsr takeRet).fst.m_taken = false →
      RecursiveSemaphoreGuard.destruct (RecursiveSemaphoreGuard.construct handle inIsr takeRet).fst = []) ∧
    ((RecursiveSemaphoreGuard.constructTimeout handle timeout inIsr takeRet).fst.m_taken = true →
      ∃ h, (RecursiveSemaphoreGuard.constructTimeout handle timeout inIsr takeRet).fst.m_handle = some h ∧
        RecursiveSemaphoreGuard.destruct (RecursiveSemaphoreGuard.constructTimeout handle timeout inIsr takeRet).fst
          = [Event.kernel (KernelCall.giveRecursive h)]) ∧
    ((RecursiveSemaphoreGuard.constructTimeout handle timeout inIsr takeRet).fst.m_taken = false →
      RecursiveSemaphoreGuard.destruct (RecursiveSemaphoreGuard.constructTimeout handle timeout inIsr takeRet).fst = []) := by
  rw [semGuard_construct_fst, semGuard_constructTimeout_fst,
    recGuard_construct_fst, recGuard_constructTimeout_fst]
  cases handle <;> cases inIsr <;>
    by_cases hr : takeRet = pdTRUE <;>
      simp [hr, SemaphoreGuard.destruct, RecursiveSemaphoreGuard.destruct]

/-- Witness for C1 at concrete inputs: handle 5, task context, take
succeeding (resp. failing). -/
theorem guards_C1_destructor_release_iff_acquired_witness :
    (∃ h, (SemaphoreGuard.construct (some 5) false 1).fst.m_handle = some h ∧
      SemaphoreGuard.destruct (SemaphoreGuard.construct (some 5) false 1).fst
        = [Event.kernel (KernelCall.give h)]) ∧
    SemaphoreGuard.destruct (SemaphoreGuard.constructTimeout (some 5) 3 false 0).fst = [] :=
  ⟨(guards_C1_destructor_release_iff_acquired (some 5) 3 false 1).1 (by decide),
   (guards_C1_destructor_release_iff_acquired (some 5) 3 false 0).2.2.2.1 (by decide)⟩

/-- C2: for every guard of either type, `hasLock()` reports true exactly
when the constructor actually issued its kernel take call (it appears in
the construction trace, on the stored handle with the requested timeout)
and that call returned `pdTRUE`; when the take fails or is never reached
(null handle, ISR context) `hasLock()` is false. -/
theorem guards_C2_hasLock_iff_take_success (handle : Option Nat)
    (timeout : Nat) (inIsr : Bool) (takeRet : Int) :
    (SemaphoreGuard.hasLock (SemaphoreGuard.construct handle inIsr takeRet).fst = true ↔
      ∃ h, handle = some h ∧
        Event.kernel (KernelCall.take h portMAX_DELAY)
          ∈ (SemaphoreGuard.construct handle inIsr takeRet).snd ∧
        takeRet = pdTRUE) ∧
    (SemaphoreGuard.hasLock (SemaphoreGuard.constructTimeout handle timeout inIsr takeRet).fst = true ↔
      ∃ h, handle = some h ∧
        Event.kernel (KernelCall.take h timeout)
          ∈ (SemaphoreGuard.constructTimeout handle timeout inIsr takeRet).snd ∧
        takeRet = pdTRUE) ∧
    (RecursiveSemaphoreGuard.hasLock (RecursiveSemaphoreGuard.construct handle inIsr takeRet).fst = true ↔
      ∃ h, handle = some h ∧
        Event.kernel (KernelCall.takeRecursive h portMAX_DELAY)
          ∈ (RecursiveSemaphoreGuard.construct handle inIsr takeRet).snd ∧
        takeRet = pdTRUE) ∧
    (RecursiveSemaphoreGuard.hasLock (RecursiveSemaphoreGuard.constructTimeout handle timeout inIsr takeRet).fst = true ↔
      ∃ h, handle = some h ∧
        Event.kernel (KernelCall.takeRecursive h timeout)
          ∈ (RecursiveSemaphoreGuard.constructTimeout handle timeout inIsr takeRet).snd ∧
        takeRet = pdTRUE) := by
  cases handle <;> cases inIsr <;> by_cases hr : takeRet = pdTRUE <;>
    simp [hr, SemaphoreGuard.construct, SemaphoreGuard.constructTimeout,
      RecursiveSemaphoreGuard.construct, RecursiveSemaphoreGuard.constructTimeout,
      SemaphoreGuard.hasLock, RecursiveSemaphoreGuard.hasLock]

/-- C3: constructing either guard on a null handle, from any constructor
(release or debug build, with or without a timeout, for every timeout
value), performs no kernel call, leaves the acquired flag false
(`hasLock() == false`), reports `isValid() == false`, and emits an
error-severity diagnostic. -/
theorem guards_C3_null_handle (timeout : Nat) (inIsr : Bool) (takeRet : Int)
    (file : String) (line : Int) (now : Nat) :
    (SemaphoreGuard.hasLock (SemaphoreGuard.construct none inIsr takeRet).fst = false ∧
      SemaphoreGuard.isValid (SemaphoreGuard.construct none inIsr takeRet).fst = false ∧
      kernelCalls (SemaphoreGuard.construct none inIsr takeRet).snd = [] ∧
      hasLogAt LogLevel.error (SemaphoreGuard.construct none inIsr takeRet).snd = true) ∧
    (SemaphoreGuard.hasLock (SemaphoreGuard.constructTimeout none timeout inIsr takeRet).fst = false ∧
      SemaphoreGuard.isValid (SemaphoreGuard.constructTimeout none timeout inIsr takeRet).fst = false ∧
      kernelCalls (SemaphoreGuard.constructTimeout none timeout inIsr takeRet).snd = [] ∧
      hasLogAt LogLevel.error (SemaphoreGuard.constructTimeout none timeout inIsr takeRet).snd = true) ∧
    (RecursiveSemaphoreGuard.hasLock (RecursiveSemaphoreGuard.construct none inIsr takeRet).fst = false ∧
      RecursiveSemaphoreGuard.isValid (RecursiveSemaphoreGuard.construct none inIsr takeRet).fst = false ∧
      kernelCalls (RecursiveSemaphoreGuard.construct none inIsr takeRet).snd = [] ∧
      hasLogAt LogLevel.error (RecursiveSemaphoreGuard.construct none inIsr takeRet).snd = true) ∧
    (RecursiveSemaphoreGuard.hasLock (RecursiveSemaphoreGuard.constructTimeout none timeout inIsr takeRet).fst = false ∧
      RecursiveSemaphoreGuard.isValid (RecursiveSemaphoreGuard.constructTimeout none timeout inIsr takeRet).fst = false ∧
      kernelCalls (RecursiveSemaphoreGuard.constructTimeout none timeout inIsr takeRet).snd = [] ∧
      hasLogAt LogLevel.error (RecursiveSemaphoreGuard.constructTimeout none timeout inIsr takeRet).snd = true) ∧
    ((SemaphoreGuardDbg.construct none inIsr takeRet).fst.m_taken = false ∧
      (SemaphoreGuardDbg.construct none inIsr takeRet).fst.m_handle = none ∧
      kernelCalls (SemaphoreGuardDbg.construct none inIsr takeRet).snd = [] ∧
      hasLogAt LogLevel.error (SemaphoreGuardDbg.construct none inIsr takeRet).snd = true) ∧
    ((SemaphoreGuardDbg.constructFileLine none file line now inIsr takeRet).fst.m_taken = false ∧
      (SemaphoreGuardDbg.constructFileLine none file line now inIsr takeRet).fst.m_handle = none ∧
      kernelCalls (SemaphoreGuardDbg.constructFileLine none file line now inIsr takeRet).snd = [] ∧
      hasLogAt LogLevel.error (SemaphoreGuardDbg.constructFileLine none file line now inIsr takeRet).snd = true) := by
  simp [SemaphoreGuard.construct, SemaphoreGuard.constructTimeout,
    RecursiveSemaphoreGuard.construct, RecursiveSemaphoreGuard.constructTimeout,
    SemaphoreGuardDbg.construct, SemaphoreGuardDbg.constructFileLine,
    SemaphoreGuard.hasLock, SemaphoreGuard.isValid,
    RecursiveSemaphoreGuard.hasLock, RecursiveSemaphoreGuard.isValid,
    kernelCalls, hasLogAt]

/-- C4: constructing either guard from ISR context on a non-null handle,
from any constructor, is refused without any kernel take call: the
construction still completes (yielding a guard object), the acquired flag
is false, and an error-severity diagnostic is emitted. -/
theorem guards_C4_isr_refused (h : Nat) (timeout : Nat) (takeRet : Int)
    (file : String) (line : Int) (now : Nat) :
    (SemaphoreGuard.hasLock (SemaphoreGuard.construct (some h) true takeRet).fst = false ∧
      kernelCalls (SemaphoreGuard.construct (some h) true takeRet).snd = [] ∧
      hasLogAt LogLevel.error (SemaphoreGuard.construct (some h) true takeRet).snd = true) ∧
    (SemaphoreGuard.hasLock (SemaphoreGuard.constructTimeout (some h) timeout true takeRet).fst = false ∧
      kernelCalls (SemaphoreGuard.constructTimeout (some h) timeout true takeRet).snd = [] ∧
      hasLogAt LogLevel.error (SemaphoreGuard.constructTimeout (some h) timeout true takeRet).snd = true) ∧
    (RecursiveSemaphoreGuard.hasLock (RecursiveSemaphoreGuard.construct (some h) true takeRet).fst = false ∧
      kernelCalls (RecursiveSemaphoreGuard.construct (some h) true takeRet).snd = [] ∧
      hasLogAt LogLevel.error (RecursiveSemaphoreGuard.construct (some h) true takeRet).snd = true) ∧
    (RecursiveSemaphoreGuard.hasLock (RecursiveSemaphoreGuard.constructTimeout (some h) timeout true takeRet).fst = false ∧
      kernelCalls (RecursiveSemaphoreGuard.constructTimeout (some h) timeout true takeRet).snd = [] ∧
      hasLogAt LogLevel.error (RecursiveSemaphoreGuard.constructTimeout (some h) timeout true takeRet).snd = true) ∧
    ((SemaphoreGuardDbg.construct (some h) true takeRet).fst.m_taken = false ∧
      kernelCalls (SemaphoreGuardDbg.construct (some h) true takeRet).snd = [] ∧
      hasLogAt LogLevel.error (SemaphoreGuardDbg.construct (some h) true takeRet).snd = true) ∧
    ((SemaphoreGuardDbg.constructFileLine (some h) file line now true takeRet).fst.m_taken = false ∧
      kernelCalls (SemaphoreGuardDbg.constructFileLine (some h) file line now true takeRet).snd = [] ∧
      hasLogAt LogLevel.error (SemaphoreGuardDbg.constructFileLine (some h) file line now true takeRet).snd = true) := by
  simp [SemaphoreGuard.construct, SemaphoreGuard.constructTimeout,
    RecursiveSemaphoreGuard.construct, RecursiveSemaphoreGuard.constructTimeout,
    SemaphoreGuardDbg.construct, SemaphoreGuardDbg.constructFileLine,
    SemaphoreGuard.hasLock, RecursiveSemaphoreGuard.hasLock,
    kernelCalls, hasLogAt]

/-- C5: construction is total — both constructors of both guard types are
plain functions producing a guard state for every combination of handle,
context, timeout and kernel take result, with no exception or error-return
channel — and the three failure modes (null handle, ISR context, failed
take) are exactly the cases in which `hasLock()` ends up false. -/
theorem guards_C5_total_failure_modes (handle : Option Nat) (timeout : Nat)
    (inIsr : Bool) (takeRet : Int) :
    (SemaphoreGuard.hasLock (SemaphoreGuard.construct handle inIsr takeRet).fst = false ↔
      handle = none ∨ inIsr = true ∨ takeRet ≠ pdTRUE) ∧
    (SemaphoreGuard.hasLock (SemaphoreGuard.constructTimeout handle timeout inIsr takeRet).fst = false ↔
      handle = none ∨ inIsr = true ∨ takeRet ≠ pdTRUE) ∧
    (RecursiveSemaphoreGuard.hasLock (RecursiveSemaphoreGuard.construct handle inIsr takeRet).fst = false ↔
      handle = none ∨ inIsr = true ∨ takeRet ≠ pdTRUE) ∧
    (RecursiveSemaphoreGuard.hasLock (RecursiveSemaphoreGuard.constructTimeout handle timeout inIsr takeRet).fst = false ↔
      handle = none ∨ inIsr = true ∨ takeRet ≠ pdTRUE) := by
  cases handle <;> cases inIsr <;> by_cases hr : takeRet = pdTRUE <;>
    simp [hr, SemaphoreGuard.construct, SemaphoreGuard.constructTimeout,
      RecursiveSemaphoreGuard.construct, RecursiveSemaphoreGuard.constructTimeout,
      SemaphoreGuard.hasLock, RecursiveSemaphoreGuard.hasLock]

lemma semGuard_observe_snd (s : SemaphoreGuard) (op : GuardOp) :
    (s.observe op).snd = s := by
  cases op <;> rfl

lemma semGuard_runOps_id (s : SemaphoreGuard) (ops : List GuardOp) :
    s.runOps ops = s := by
  induction ops with
  | nil => rfl
  | cons o os ih =>
      rw [SemaphoreGuard.runOps, List.foldl_cons, semGuard_observe_snd]
      exact ih

lemma recGuard_observe_snd (s : RecursiveSemaphoreGuard)
    (op : GuardOp) : (s.observe op).snd = s := by
  cases op <;> rfl

lemma recGuard_runOps_id (s : RecursiveSemaphoreGuard)
    (ops : List GuardOp) : s.runOps ops = s := by
  induction ops with
  | nil => rfl
  | cons o os ih =>
      rw [RecursiveSemaphoreGuard.runOps, List.foldl_cons,
        recGuard_observe_snd]
      exact ih

/-- C6: after construction, the only state-changing operation left is
destruction: any sequence of accessor calls leaves the guard state (and in
particular the acquired flag) exactly as construction left it, `hasLock()`
returns the acquired flag, `isValid()` returns whether the stored handle
is non-null independently of context and take outcome, and `getHandle()`
returns exactly the handle passed to the constructor; a guard that failed
to acquire therefore never becomes acquired later. -/
theorem guards_C6_observers_pure (handle : Option Nat) (timeout : Nat)
    (inIsr : Bool) (takeRet : Int) (ops : List GuardOp) :
    (SemaphoreGuard.runOps (SemaphoreGuard.constructTimeout handle timeout inIsr takeRet).fst ops
        = (SemaphoreGuard.constructTimeout handle timeout inIsr takeRet).fst ∧
      SemaphoreGuard.hasLock
          (SemaphoreGuard.runOps (SemaphoreGuard.constructTimeout handle timeout inIsr takeRet).fst ops)
        = (SemaphoreGuard.constructTimeout handle timeout inIsr takeRet).fst.m_taken ∧
      SemaphoreGuard.isValid (SemaphoreGuard.constructTimeout handle timeout inIsr takeRet).fst
        = handle.isSome ∧
      SemaphoreGuard.getHandle (SemaphoreGuard.constructTimeout handle timeout inIsr takeRet).fst
        = handle ∧
      SemaphoreGuard.getHandle (SemaphoreGuard.construct handle inIsr takeRet).fst = handle ∧
      SemaphoreGuard.isValid (SemaphoreGuard.construct handle inIsr takeRet).fst = handle.isSome) ∧
    (RecursiveSemaphoreGuard.runOps (RecursiveSemaphoreGuard.constructTimeout handle timeout inIsr takeRet).fst ops
        = (RecursiveSemaphoreGuard.constructTimeout handle timeout inIsr takeRet).fst ∧
      RecursiveSemaphoreGuard.hasLock
          (RecursiveSemaphoreGuard.runOps (RecursiveSemaphoreGuard.constructTimeout handle timeout inIsr takeRet).fst ops)
        = (RecursiveSemaphoreGuard.constructTimeout handle timeout inIsr takeRet).fst.m_taken ∧
      RecursiveSemaphoreGuard.isValid (RecursiveSemaphoreGuard.constructTimeout handle timeout inIsr takeRet).fst
        = handle.isSome ∧
      RecursiveSemaphoreGuard.getHandle (RecursiveSemaphoreGuard.constructTimeout handle timeout inIsr takeRet).fst
        = handle ∧
      RecursiveSemaphoreGuard.getHandle (RecursiveSemaphoreGuard.construct handle inIsr takeRet).fst = handle ∧
      RecursiveSemaphoreGuard.isValid (RecursiveSemaphoreGuard.construct handle inIsr takeRet).fst = handle.isSome) := by
  rw [semGuard_construct_fst, semGuard_constructTimeout_fst,
    recGuard_construct_fst, recGuard_constructTimeout_fst]
  simp [semGuard_runOps_id, recGuard_runOps_id,
    SemaphoreGuard.hasLock, SemaphoreGuard.isValid, SemaphoreGuard.getHandle,
    RecursiveSemaphoreGuard.hasLock, RecursiveSemaphoreGuard.isValid,
    RecursiveSemaphoreGuard.getHandle]

/-- C7: the recursive guard is the binary guard with the kernel primitive
swapped: for every handle, timeout, context and take result, both
constructors of the two types store the same handle, compute the same
acquired flag, and issue the same kernel calls up to the
`take -> takeRecursive` / `give -> giveRecursive` renaming; and on any
state with the same fields, the two destructors release under the same
condition, again up to the renaming. -/
theorem guards_C7_recursive_refines_binary (handle : Option Nat)
    (timeout : Nat) (inIsr : Bool) (takeRet : Int) (tk : Bool) :
    ((RecursiveSemaphoreGuard.construct handle inIsr takeRet).fst.m_handle
        = (SemaphoreGuard.construct handle inIsr takeRet).fst.m_handle ∧
      (RecursiveSemaphoreGuard.construct handle inIsr takeRet).fst.m_taken
        = (SemaphoreGuard.construct handle inIsr takeRet).fst.m_taken ∧
      kernelCalls (RecursiveSemaphoreGuard.construct handle inIsr takeRet).snd
        = (kernelCalls (SemaphoreGuard.construct handle inIsr takeRet).snd).map recursify) ∧
    ((RecursiveSemaphoreGuard.constructTimeout handle timeout inIsr takeRet).fst.m_handle
        = (SemaphoreGuard.constructTimeout handle timeout inIsr takeRet).fst.m_handle ∧
      (RecursiveSemaphoreGuard.constructTimeout handle timeout inIsr takeRet).fst.m_taken
        = (SemaphoreGuard.constructTimeout handle timeout inIsr takeRet).fst.m_taken ∧
      kernelCalls (RecursiveSemaphoreGuard.constructTimeout handle timeout inIsr takeRet).snd
        = (kernelCalls (SemaphoreGuard.constructTimeout handle timeout inIsr takeRet).snd).map recursify) ∧
    kernelCalls (RecursiveSemaphoreGuard.destruct ⟨handle, tk⟩)
      = (kernelCalls (SemaphoreGuard.destruct ⟨handle, tk⟩)).map recursify := by
  cases handle <;> cases inIsr <;> cases tk <;> by_cases hr : takeRet = pdTRUE <;>
    simp [hr, SemaphoreGuard.construct, SemaphoreGuard.constructTimeout,
      RecursiveSemaphoreGuard.construct, RecursiveSemaphoreGuard.constructTimeout,
      SemaphoreGuard.destruct, RecursiveSemaphoreGuard.destruct,
      kernelCalls, recursify]

/-- C8 evaluation: in a debug build, the plain constructor
`SemaphoreGuard(handle)` acquires the semaphore but leaves `m_acquireTime`
(and `m_file`, `m_line`) uninitialized, so the destructor's hold-time log
reads an indeterminate field (the embedding yields `none`); a guard built
by the debug file/line constructor records the timestamp and the
destructor logs `now - m_acquireTime` as the claim describes. -/
theorem semaphoreGuardDbg_C8_plain_ctor_uninitialized_hold_time :
    (SemaphoreGuardDbg.construct (some 1) false 1).fst.m_taken = true ∧
    (SemaphoreGuardDbg.construct (some 1) false 1).fst.m_acquireTime = none ∧
    SemaphoreGuardDbg.destruct (SemaphoreGuardDbg.construct (some 1) false 1).fst 100 = none ∧
    (SemaphoreGuardDbg.constructFileLine (some 1) "main.cpp" 42 70 false 1).fst.m_acquireTime
      = some 70 ∧
    SemaphoreGuardDbg.destruct
        (SemaphoreGuardDbg.constructFileLine (some 1) "main.cpp" 42 70 false 1).fst 100
      = some [Event.log LogLevel.debug SEMG_LOG_TAG
                "Releasing semaphore at main.cpp:42 (held for 30 ticks)",
              Event.kernel (KernelCall.give 1)] := by
  refine ⟨rfl, rfl, rfl, rfl, ?_⟩
  decide

/-- C10: for every constructed guard of either type, `hasLock() == true`
implies `isValid() == true` (the acquired flag can only be set on a
non-null handle), and on every constructed state the destructor behaves
exactly like the variant that drops the null-handle test and releases on
the acquired flag alone — the test is redundant and the release branch is
taken exactly when the flag is true. -/
theorem guards_C10_hasLock_implies_isValid (handle : Option Nat)
    (timeout : Nat) (inIsr : Bool) (takeRet : Int) :
    (SemaphoreGuard.hasLock (SemaphoreGuard.construct handle inIsr takeRet).fst = true →
      SemaphoreGuard.isValid (SemaphoreGuard.construct handle inIsr takeRet).fst = true) ∧
    (SemaphoreGuard.hasLock (SemaphoreGuard.constructTimeout handle timeout inIsr takeRet).fst = true →
      SemaphoreGuard.isValid (SemaphoreGuard.constructTimeout handle timeout inIsr takeRet).fst = true) ∧
    (RecursiveSemaphoreGuard.hasLock (RecursiveSemaphoreGuard.construct handle inIsr takeRet).fst = true →
      RecursiveSemaphoreGuard.isValid (RecursiveSemaphoreGuard.construct handle inIsr takeRet).fst = true) ∧
    (RecursiveSemaphoreGuard.hasLock (RecursiveSemaphoreGuard.constructTimeout handle timeout inIsr takeRet).fst = true →
      RecursiveSemaphoreGuard.isValid (RecursiveSemaphoreGuard.constructTimeout handle timeout inIsr takeRet).fst = true) ∧
    SemaphoreGuard.destruct (SemaphoreGuard.construct handle inIsr takeRet).fst
      = SemaphoreGuard.destructTakenOnly (SemaphoreGuard.construct handle inIsr takeRet).fst ∧
    SemaphoreGuard.destruct (SemaphoreGuard.constructTimeout handle timeout inIsr takeRet).fst
      = SemaphoreGuard.destructTakenOnly (SemaphoreGuard.constructTimeout handle timeout inIsr takeRet).fst := by
  rw [semGuard_construct_fst, semGuard_constructTimeout_fst,
    recGuard_construct_fst, recGuard_constructTimeout_fst]
  cases handle <;> cases inIsr <;> by_cases hr : takeRet = pdTRUE <;>
    simp [hr, SemaphoreGuard.hasLock, SemaphoreGuard.isValid,
      RecursiveSemaphoreGuard.hasLock, RecursiveSemaphoreGuard.isValid,
      SemaphoreGuard.destruct, SemaphoreGuard.destructTakenOnly]

/-- Witness for C10 at concrete inputs: handle 7, task context, take
succeeding, so `hasLock` is true and `isValid` follows. -/
theorem guards_C10_hasLock_implies_isValid_witness :
    SemaphoreGuard.isValid (SemaphoreGuard.construct (some 7) false 1).fst = true ∧
    RecursiveSemaphoreGuard.isValid
        (RecursiveSemaphoreGuard.constructTimeout (some 7) 4 false 1).fst = true :=
  ⟨(guards_C10_hasLock_implies_isValid (some 7) 4 false 1).1 (by decide),
   (guards_C10_hasLock_implies_isValid (some 7) 4 false 1).2.2.2.1 (by decide)⟩
